import Mathlib

/-!
Verification development for the client-side synchronization core of a
Matrix SDK: the state-store facade (`crates/matrix-sdk-base/src/store/mod.rs`)
and the sliding-sync session bootstrap
(`crates/matrix-sdk/src/sliding_sync/config.rs`).

The Rust code is shallowly embedded: concurrent maps (`DashMap`, `BTreeMap`
used purely as key-value maps) become functions `κ → Option ν`; the `BTreeMap`
of views, whose iteration order matters, becomes a name-sorted association
list; panics (`expect`) become an explicit `panicked` outcome; fallible
operations return `Except`.  Payload types that the code treats opaquely
(raw JSON events, room payloads) are embedded as `Nat`.
-/

namespace MatrixSdk

/-- A key-value map, modelling Rust `BTreeMap`/`DashMap` contents. -/
def Mp (κ ν : Type) : Type := κ → Option ν

/-- The empty map. -/
def Mp.empty {κ ν : Type} : Mp κ ν := fun _ => none

/-- Map insertion (Rust `insert`, overwriting any previous value). -/
def Mp.insert {κ ν : Type} [DecidableEq κ] (m : Mp κ ν) (k : κ) (v : ν) : Mp κ ν :=
  fun x => if x = k then some v else m x

theorem Mp.insert_self {κ ν : Type} [DecidableEq κ] (m : Mp κ ν) (k : κ) (v : ν) :
    Mp.insert m k v k = some v := by
  simp [Mp.insert]

theorem Mp.insert_other {κ ν : Type} [DecidableEq κ] (m : Mp κ ν) (k x : κ) (v : ν)
    (h : x ≠ k) : Mp.insert m k v x = m x := by
  simp [Mp.insert, h]

theorem Mp.insert_insert {κ ν : Type} [DecidableEq κ] (m : Mp κ ν) (k : κ) (a b : ν) :
    Mp.insert (Mp.insert m k a) k b = Mp.insert m k b := by
  funext x
  by_cases h : x = k <;> simp [Mp.insert, h]

theorem Mp.insert_comm {κ ν : Type} [DecidableEq κ] (m : Mp κ ν) (k1 k2 : κ) (v1 v2 : ν)
    (h : k1 ≠ k2) :
    Mp.insert (Mp.insert m k1 v1) k2 v2 = Mp.insert (Mp.insert m k2 v2) k1 v1 := by
  funext x
  by_cases h1 : x = k1 <;> by_cases h2 : x = k2 <;>
    simp_all [Mp.insert]

/-! ## The state-store facade (`matrix-sdk-base/src/store/mod.rs`) -/

/-- A user session (`Session`): user identifier plus credentials handle
(credentials are irrelevant to the embedded operations). -/
structure Session where
  user_id : String
deriving DecidableEq

/-- Membership category of a room (`RoomType` in `rooms`). -/
inductive RoomType
  | joined
  | left
  | invited
deriving DecidableEq

/-- A `Room` object: identity, membership category, and the user that it was
created for.  The back-reference to the backend is not modelled (a room never
owns the store and the embedded operations never call through it). -/
structure Room where
  room_id : String
  room_type : RoomType
  user_id : String
deriving DecidableEq

/-- Outcome of an operation that returns a value in Rust but may panic
(`expect`).  `get_or_create_room` has return type `Room` in the source, so a
typed error return is impossible there; only success or a panic. -/
inductive PanicOr (α : Type)
  | ok (a : α)
  | panicked (msg : String)

/-- The error kinds of `StoreError` in `store/mod.rs`.  Note that there is no
variant for a missing session. -/
inductive StoreErrorKind
  | backend
  | json
  | identifier
  | storeLocked
  | unencryptedStore
  | encryption
  | codec
  | redaction
deriving DecidableEq

/-- The `Store` facade: the installed session behind its lock, and the two
room partitions (`rooms` and `stripped_rooms`, Rust `DashMap`s).  The inner
`StateStore` backend and the sync token are not touched by the embedded
operations and are omitted. -/
structure Store where
  session : Option Session
  rooms : Mp String Room
  stripped_rooms : Mp String Room

/-- `Store::get_stripped_room`. -/
def Store.get_stripped_room (s : Store) (room_id : String) : Option Room :=
  s.stripped_rooms room_id

/-- `Store::get_room`: confirmed-partition lookup, with an Invited entry
resolved through the stripped partition, and a missing confirmed entry
falling back to the stripped partition. -/
def Store.get_room (s : Store) (room_id : String) : Option Room :=
  (match s.rooms room_id with
    | some r =>
      match r.room_type with
      | RoomType.joined => some r
      | RoomType.left => some r
      | RoomType.invited => s.get_stripped_room room_id
    | none => none).orElse (fun _ => s.get_stripped_room room_id)

/-- `Store::get_or_create_stripped_room`: reads the session (panicking via
`expect` when none is installed), then `entry(..).or_insert_with(..)` on the
stripped partition. -/
def Store.get_or_create_stripped_room (s : Store) (room_id : String) :
    PanicOr (Room × Store) :=
  match s.session with
  | none => PanicOr.panicked "Creating room while not being logged in"
  | some sess =>
    match s.stripped_rooms room_id with
    | some r => PanicOr.ok (r, s)
    | none =>
      let r : Room := { room_id := room_id, room_type := RoomType.invited,
                        user_id := sess.user_id }
      PanicOr.ok (r, { s with stripped_rooms := Mp.insert s.stripped_rooms room_id r })

/-- `Store::get_or_create_room`: an Invited request is delegated to the
stripped partition; otherwise the session is read (panicking via `expect`
when none is installed) and `entry(..).or_insert_with(..)` runs on the
confirmed partition. -/
def Store.get_or_create_room (s : Store) (room_id : String) (room_type : RoomType) :
    PanicOr (Room × Store) :=
  if room_type = RoomType.invited then
    s.get_or_create_stripped_room room_id
  else
    match s.session with
    | none => PanicOr.panicked "Creating room while not being logged in"
    | some sess =>
      match s.rooms room_id with
      | some r => PanicOr.ok (r, s)
      | none =>
        let r : Room := { room_id := room_id, room_type := room_type,
                          user_id := sess.user_id }
        PanicOr.ok (r, { s with rooms := Mp.insert s.rooms room_id r })

/-- A store with no installed session and empty partitions. -/
def emptyNoSessionStore : Store :=
  { session := none, rooms := Mp.empty, stripped_rooms := Mp.empty }

/-- A logged-in store with empty partitions, for concrete instantiations. -/
def aliceStore : Store :=
  { session := some { user_id := "@alice:example.org" },
    rooms := Mp.empty, stripped_rooms := Mp.empty }

/-- A store holding a stale Invited entry in the confirmed partition and an
empty stripped partition. -/
def staleInvitedStore : Room → Store := fun r =>
  { session := none,
    rooms := Mp.insert Mp.empty r.room_id r,
    stripped_rooms := Mp.empty }

theorem goc_stripped_found (s : Store) (room_id : String) (sess : Session) (r : Room)
    (h : s.session = some sess) (hl : s.stripped_rooms room_id = some r) :
    s.get_or_create_stripped_room room_id = PanicOr.ok (r, s) := by
  unfold Store.get_or_create_stripped_room
  rw [h, hl]

theorem goc_stripped_new (s : Store) (room_id : String) (sess : Session)
    (h : s.session = some sess) (hl : s.stripped_rooms room_id = none) :
    s.get_or_create_stripped_room room_id =
      PanicOr.ok (Room.mk room_id RoomType.invited sess.user_id,
        Store.mk (some sess) s.rooms
          (Mp.insert s.stripped_rooms room_id
            (Room.mk room_id RoomType.invited sess.user_id))) := by
  unfold Store.get_or_create_stripped_room
  rw [h, hl]

theorem goc_room_found (s : Store) (room_id : String) (room_type : RoomType)
    (sess : Session) (r : Room) (ht : room_type ≠ RoomType.invited)
    (h : s.session = some sess) (hl : s.rooms room_id = some r) :
    s.get_or_create_room room_id room_type = PanicOr.ok (r, s) := by
  unfold Store.get_or_create_room
  rw [if_neg ht, h, hl]

theorem goc_room_new (s : Store) (room_id : String) (room_type : RoomType)
    (sess : Session) (ht : room_type ≠ RoomType.invited)
    (h : s.session = some sess) (hl : s.rooms room_id = none) :
    s.get_or_create_room room_id room_type =
      PanicOr.ok (Room.mk room_id room_type sess.user_id,
        Store.mk (some sess)
          (Mp.insert s.rooms room_id (Room.mk room_id room_type sess.user_id))
          s.stripped_rooms) := by
  unfold Store.get_or_create_room
  rw [if_neg ht, h, hl]

/-! ## C1 -/

/-- C1, counterexample: with no session installed, `get_or_create_room` and
`get_or_create_stripped_room` panic (the `expect` in the source) instead of
failing with a `NoActiveSession` error — `StoreError` has no such variant and
the functions return `Room`, not a `Result`, so an error return is not even
possible. -/
theorem c1_counterexample :
    emptyNoSessionStore.get_or_create_room "!room:example.org" RoomType.joined
      = PanicOr.panicked "Creating room while not being logged in" ∧
    emptyNoSessionStore.get_or_create_stripped_room "!room:example.org"
      = PanicOr.panicked "Creating room while not being logged in" :=
  ⟨rfl, rfl⟩

/-- C1, amended: every call of `get_or_create_room` (and
`get_or_create_stripped_room`) made while no session is installed panics with
the message "Creating room while not being logged in"; in particular it never
silently proceeds with a default session. -/
theorem c1_no_session_panics (s : Store) (room_id : String) (room_type : RoomType)
    (h : s.session = none) :
    s.get_or_create_room room_id room_type
      = PanicOr.panicked "Creating room while not being logged in" ∧
    s.get_or_create_stripped_room room_id
      = PanicOr.panicked "Creating room while not being logged in" := by
  constructor
  · by_cases ht : room_type = RoomType.invited <;>
      simp [Store.get_or_create_room, Store.get_or_create_stripped_room, ht, h]
  · simp [Store.get_or_create_stripped_room, h]

/-- C1, witness: the amended theorem applied to the empty session-less store. -/
theorem c1_no_session_panics_witness :
    emptyNoSessionStore.get_or_create_room "!other:example.org" RoomType.left
      = PanicOr.panicked "Creating room while not being logged in" ∧
    emptyNoSessionStore.get_or_create_stripped_room "!other:example.org"
      = PanicOr.panicked "Creating room while not being logged in" :=
  c1_no_session_panics emptyNoSessionStore "!other:example.org" RoomType.left rfl

/-! ## C6 -/

/-- C6: when the confirmed partition records a room as Invited, `get_room`
resolves the lookup through the stripped partition — it never returns the
confirmed-partition entry, and when the stripped partition has no entry the
lookup is absent. -/
theorem c6_invited_resolves_via_stripped (s : Store) (room_id : String) (r : Room)
    (h1 : s.rooms room_id = some r) (h2 : r.room_type = RoomType.invited) :
    s.get_room room_id = s.get_stripped_room room_id := by
  have step : s.get_room room_id
      = (s.get_stripped_room room_id).orElse (fun _ => s.get_stripped_room room_id) := by
    simp [Store.get_room, h1, h2]
  rw [step]
  cases hs : s.get_stripped_room room_id <;> simp [Option.orElse]

/-- C6, witness: a store whose confirmed partition holds a stale Invited
entry and whose stripped partition is empty; the lookup goes to the stripped
partition and is absent. -/
theorem c6_invited_resolves_via_stripped_witness :
    (staleInvitedStore
        { room_id := "!inv:example.org", room_type := RoomType.invited,
          user_id := "@u:x" }).get_room "!inv:example.org"
      = (staleInvitedStore
          { room_id := "!inv:example.org", room_type := RoomType.invited,
            user_id := "@u:x" }).get_stripped_room "!inv:example.org" ∧
    (staleInvitedStore
        { room_id := "!inv:example.org", room_type := RoomType.invited,
          user_id := "@u:x" }).get_room "!inv:example.org" = none :=
  ⟨c6_invited_resolves_via_stripped _ "!inv:example.org"
      { room_id := "!inv:example.org", room_type := RoomType.invited, user_id := "@u:x" }
      (by simp [staleInvitedStore, Mp.insert]) rfl,
    rfl⟩

/-! ## C8 -/

/-- C8: with a session installed, `get_or_create_room` called twice with
identical arguments returns the same `Room` both times, and the second call
leaves the store exactly as the first call left it (idempotent upsert). -/
theorem c8_get_or_create_room_idempotent (s : Store) (room_id : String)
    (room_type : RoomType) (sess : Session) (h : s.session = some sess) :
    ∃ r s2, s.get_or_create_room room_id room_type = PanicOr.ok (r, s2) ∧
      s2.get_or_create_room room_id room_type = PanicOr.ok (r, s2) := by
  by_cases ht : room_type = RoomType.invited
  · subst ht
    cases hl : s.stripped_rooms room_id with
    | some r =>
      exact ⟨r, s, goc_stripped_found s room_id sess r h hl,
        goc_stripped_found s room_id sess r h hl⟩
    | none =>
      refine ⟨Room.mk room_id RoomType.invited sess.user_id,
        Store.mk (some sess) s.rooms
          (Mp.insert s.stripped_rooms room_id
            (Room.mk room_id RoomType.invited sess.user_id)),
        goc_stripped_new s room_id sess h hl, ?_⟩
      exact goc_stripped_found
        (Store.mk (some sess) s.rooms
          (Mp.insert s.stripped_rooms room_id
            (Room.mk room_id RoomType.invited sess.user_id)))
        room_id sess (Room.mk room_id RoomType.invited sess.user_id) rfl
        (Mp.insert_self s.stripped_rooms room_id _)
  · cases hl : s.rooms room_id with
    | some r =>
      exact ⟨r, s, goc_room_found s room_id room_type sess r ht h hl,
        goc_room_found s room_id room_type sess r ht h hl⟩
    | none =>
      refine ⟨Room.mk room_id room_type sess.user_id,
        Store.mk (some sess)
          (Mp.insert s.rooms room_id (Room.mk room_id room_type sess.user_id))
          s.stripped_rooms,
        goc_room_new s room_id room_type sess ht h hl, ?_⟩
      exact goc_room_found
        (Store.mk (some sess)
          (Mp.insert s.rooms room_id (Room.mk room_id room_type sess.user_id))
          s.stripped_rooms)
        room_id room_type sess (Room.mk room_id room_type sess.user_id) ht rfl
        (Mp.insert_self s.rooms room_id _)

/-- C8, witness: the idempotence theorem applied to a logged-in store with
empty partitions and a Joined request. -/
theorem c8_get_or_create_room_idempotent_witness :
    ∃ r s2,
      aliceStore.get_or_create_room "!room:example.org" RoomType.joined
        = PanicOr.ok (r, s2) ∧
      s2.get_or_create_room "!room:example.org" RoomType.joined = PanicOr.ok (r, s2) :=
  c8_get_or_create_room_idempotent aliceStore "!room:example.org" RoomType.joined
    { user_id := "@alice:example.org" } rfl

/-! ## C10 -/

/-- C10: `get_or_create_room` with category Invited operates exclusively on
the stripped partition: it is literally the stripped upsert, the confirmed
partition is left unchanged, the room is found or inserted in the stripped
map, and a freshly created room has Invited type. -/
theorem c10_invited_only_touches_stripped (s : Store) (room_id : String)
    (sess : Session) (h : s.session = some sess) :
    s.get_or_create_room room_id RoomType.invited
      = s.get_or_create_stripped_room room_id ∧
    ∃ r s2, s.get_or_create_stripped_room room_id = PanicOr.ok (r, s2) ∧
      s2.rooms = s.rooms ∧
      s2.stripped_rooms room_id = some r ∧
      (s.stripped_rooms room_id = none → r.room_type = RoomType.invited) := by
  refine ⟨rfl, ?_⟩
  cases hl : s.stripped_rooms room_id with
  | some r =>
    refine ⟨r, s, goc_stripped_found s room_id sess r h hl, rfl, hl, ?_⟩
    intro hn
    simp [hl] at hn
  | none =>
    refine ⟨Room.mk room_id RoomType.invited sess.user_id,
      Store.mk (some sess) s.rooms
        (Mp.insert s.stripped_rooms room_id
          (Room.mk room_id RoomType.invited sess.user_id)),
      goc_stripped_new s room_id sess h hl, rfl,
      Mp.insert_self s.stripped_rooms room_id _, fun _ => rfl⟩

/-- C10, witness: the theorem applied to a logged-in store with empty
partitions. -/
theorem c10_invited_only_touches_stripped_witness :
    aliceStore.get_or_create_room "!inv:example.org" RoomType.invited
      = aliceStore.get_or_create_stripped_room "!inv:example.org" ∧
    ∃ r s2,
      aliceStore.get_or_create_stripped_room "!inv:example.org" = PanicOr.ok (r, s2) ∧
      s2.rooms = aliceStore.rooms ∧
      s2.stripped_rooms "!inv:example.org" = some r ∧
      (aliceStore.stripped_rooms "!inv:example.org" = none →
        r.room_type = RoomType.invited) :=
  c10_invited_only_touches_stripped aliceStore "!inv:example.org"
    { user_id := "@alice:example.org" } rfl

/-! ## The changeset (`StateChanges` in `matrix-sdk-base/src/store/mod.rs`) -/

/-- A nested upsert on a two-level map: `entry(r).or_insert_with(new).insert(t, v)`. -/
def upsert2 {ν : Type} (m : Mp String (Mp String ν)) (r t : String) (v : ν) :
    Mp String (Mp String ν) :=
  Mp.insert m r (Mp.insert ((m r).getD Mp.empty) t v)

/-- A nested upsert on a three-level map:
`entry(r).or_insert_with(new).entry(t).or_insert_with(new).insert(k, v)`. -/
def upsert3 {ν : Type} (m : Mp String (Mp String (Mp String ν))) (r t k : String)
    (v : ν) : Mp String (Mp String (Mp String ν)) :=
  let byType := (m r).getD Mp.empty
  let byKey := (byType t).getD Mp.empty
  Mp.insert m r (Mp.insert byType t (Mp.insert byKey k v))

theorem upsert2_last {ν : Type} (m : Mp String (Mp String ν)) (r t : String) (a b : ν) :
    upsert2 (upsert2 m r t a) r t b = upsert2 m r t b := by
  simp only [upsert2, Mp.insert_self, Option.getD_some, Mp.insert_insert]

theorem upsert2_comm {ν : Type} (m : Mp String (Mp String ν)) (r1 t1 r2 t2 : String)
    (v1 v2 : ν) (h : ¬(r1 = r2 ∧ t1 = t2)) :
    upsert2 (upsert2 m r1 t1 v1) r2 t2 v2 = upsert2 (upsert2 m r2 t2 v2) r1 t1 v1 := by
  by_cases hr : r1 = r2
  · subst hr
    have ht : t1 ≠ t2 := fun hh => h ⟨rfl, hh⟩
    simp only [upsert2, Mp.insert_self, Option.getD_some, Mp.insert_insert]
    rw [Mp.insert_comm _ _ _ _ _ ht]
  · have hr2 : r2 ≠ r1 := fun hh => hr hh.symm
    simp only [upsert2]
    rw [Mp.insert_other _ _ _ _ hr2, Mp.insert_other _ _ _ _ hr,
      Mp.insert_comm _ _ _ _ _ hr]

theorem upsert3_last {ν : Type} (m : Mp String (Mp String (Mp String ν)))
    (r t k : String) (a b : ν) :
    upsert3 (upsert3 m r t k a) r t k b = upsert3 m r t k b := by
  simp only [upsert3, Mp.insert_self, Option.getD_some, Mp.insert_insert]

theorem upsert3_comm {ν : Type} (m : Mp String (Mp String (Mp String ν)))
    (r1 t1 k1 r2 t2 k2 : String) (v1 v2 : ν)
    (h : ¬(r1 = r2 ∧ t1 = t2 ∧ k1 = k2)) :
    upsert3 (upsert3 m r1 t1 k1 v1) r2 t2 k2 v2
      = upsert3 (upsert3 m r2 t2 k2 v2) r1 t1 k1 v1 := by
  by_cases hr : r1 = r2
  · subst hr
    by_cases ht : t1 = t2
    · subst ht
      have hk : k1 ≠ k2 := fun hh => h ⟨rfl, rfl, hh⟩
      simp only [upsert3, Mp.insert_self, Option.getD_some, Mp.insert_insert]
      rw [Mp.insert_comm _ _ _ _ _ hk]
    · have ht2 : t2 ≠ t1 := fun hh => ht hh.symm
      simp only [upsert3, Mp.insert_self, Option.getD_some, Mp.insert_insert]
      rw [Mp.insert_other _ _ _ _ ht2, Mp.insert_other _ _ _ _ ht,
        Mp.insert_comm _ _ _ _ _ ht]
  · have hr2 : r2 ≠ r1 := fun hh => hr hh.symm
    simp only [upsert3]
    rw [Mp.insert_other _ _ _ _ hr2, Mp.insert_other _ _ _ _ hr,
      Mp.insert_comm _ _ _ _ _ hr]

/-- A presence event: its sender (the key the changeset uses) and an opaque
payload. -/
structure PresenceEvent where
  sender : String
  payload : Nat
deriving DecidableEq

/-- A `RoomInfo`: the room id (the key the changeset uses) and an opaque
payload. -/
structure RoomInfo where
  room_id : String
  payload : Nat
deriving DecidableEq

/-- A sync state event, reduced to the two fields the changeset keys by. -/
structure SyncStateEvent where
  event_type : String
  state_key : String
deriving DecidableEq

/-- A global account-data event, reduced to its event type. -/
structure AccountDataEvent where
  event_type : String
deriving DecidableEq

/-- A room account-data event, reduced to its event type. -/
structure RoomAccountDataEvent where
  event_type : String
deriving DecidableEq

/-- A stripped member event: its state key (the member user id) and an opaque
payload. -/
structure StrippedMemberEvent where
  state_key : String
  payload : Nat
deriving DecidableEq

/-- `StateChanges`: the in-memory batch of keyed upserts handed whole to the
backend.  Raw event payloads, receipt contents, timeline slices and
notifications are opaque `Nat`s; `BTreeMap`s are `Mp` maps and the
notification `Vec` is a list. -/
structure StateChanges where
  sync_token : Option String
  session : Option Session
  account_data : Mp String Nat
  presence : Mp String Nat
  members : Mp String (Mp String Nat)
  profiles : Mp String (Mp String Nat)
  state : Mp String (Mp String (Mp String Nat))
  room_account_data : Mp String (Mp String Nat)
  room_infos : Mp String RoomInfo
  receipts : Mp String Nat
  stripped_state : Mp String (Mp String (Mp String Nat))
  stripped_members : Mp String (Mp String StrippedMemberEvent)
  stripped_room_infos : Mp String RoomInfo
  ambiguity_maps : Mp String (Mp String (List String))
  notifications : Mp String (List Nat)
  timeline : Mp String Nat

/-- The default (empty) changeset. -/
def emptyStateChanges : StateChanges :=
  { sync_token := none, session := none, account_data := Mp.empty,
    presence := Mp.empty, members := Mp.empty, profiles := Mp.empty,
    state := Mp.empty, room_account_data := Mp.empty, room_infos := Mp.empty,
    receipts := Mp.empty, stripped_state := Mp.empty,
    stripped_members := Mp.empty, stripped_room_infos := Mp.empty,
    ambiguity_maps := Mp.empty, notifications := Mp.empty, timeline := Mp.empty }

/-- `StateChanges::add_presence_event`: keyed by the event sender. -/
def StateChanges.add_presence_event (c : StateChanges) (event : PresenceEvent)
    (raw_event : Nat) : StateChanges :=
  { c with presence := Mp.insert c.presence event.sender raw_event }

/-- `StateChanges::add_room`: keyed by the room id of the `RoomInfo`. -/
def StateChanges.add_room (c : StateChanges) (room : RoomInfo) : StateChanges :=
  { c with room_infos := Mp.insert c.room_infos room.room_id room }

/-- `StateChanges::add_stripped_room`: keyed by the room id of the `RoomInfo`. -/
def StateChanges.add_stripped_room (c : StateChanges) (room : RoomInfo) : StateChanges :=
  { c with stripped_room_infos := Mp.insert c.stripped_room_infos room.room_id room }

/-- `StateChanges::add_account_data`: keyed by the event type. -/
def StateChanges.add_account_data (c : StateChanges) (event : AccountDataEvent)
    (raw_event : Nat) : StateChanges :=
  { c with account_data := Mp.insert c.account_data event.event_type raw_event }

/-- `StateChanges::add_room_account_data`: room id, then event type. -/
def StateChanges.add_room_account_data (c : StateChanges) (room_id : String)
    (event : RoomAccountDataEvent) (raw_event : Nat) : StateChanges :=
  { c with room_account_data :=
      upsert2 c.room_account_data room_id event.event_type raw_event }

/-- `StateChanges::add_stripped_member`: room id, then the event state key
(the member user id). -/
def StateChanges.add_stripped_member (c : StateChanges) (room_id : String)
    (event : StrippedMemberEvent) : StateChanges :=
  { c with stripped_members :=
      upsert2 c.stripped_members room_id event.state_key event }

/-- `StateChanges::add_state_event`: room id, then event type, then state key. -/
def StateChanges.add_state_event (c : StateChanges) (room_id : String)
    (event : SyncStateEvent) (raw_event : Nat) : StateChanges :=
  { c with state :=
      upsert3 c.state room_id event.event_type event.state_key raw_event }

/-- `StateChanges::add_notification`:
`entry(room_id).or_insert_with(Vec::new).push(notification)`. -/
def StateChanges.add_notification (c : StateChanges) (room_id : String)
    (n : Nat) : StateChanges :=
  { c with notifications :=
      Mp.insert c.notifications room_id (((c.notifications room_id).getD []) ++ [n]) }

/-- `StateChanges::add_receipts`: keyed by the room id. -/
def StateChanges.add_receipts (c : StateChanges) (room_id : String)
    (event : Nat) : StateChanges :=
  { c with receipts := Mp.insert c.receipts room_id event }

/-- `StateChanges::add_timeline`: keyed by the room id. -/
def StateChanges.add_timeline (c : StateChanges) (room_id : String)
    (timeline : Nat) : StateChanges :=
  { c with timeline := Mp.insert c.timeline room_id timeline }

/-! ## C7 -/

/-- C7: repeated `add_state_event` with identical room id, event type and
state key retains only the last raw event; the earlier value for the triple
is discarded and nothing else in the changeset differs. -/
theorem c7_add_state_event_last_write_wins (c : StateChanges) (room_id : String)
    (event : SyncStateEvent) (raw1 raw2 : Nat) :
    (c.add_state_event room_id event raw1).add_state_event room_id event raw2
      = c.add_state_event room_id event raw2 := by
  simp only [StateChanges.add_state_event]
  rw [upsert3_last]

/-! ## C5 -/

/-- C5, counterexample: `add_notification` is not a last-write-wins upsert:
two notifications for the same room are both retained, in call order, so the
aggregate also depends on the insertion order. -/
theorem c5_counterexample :
    ((emptyStateChanges.add_notification "!r:x" 1).add_notification "!r:x" 2).notifications
        "!r:x" = some [1, 2] ∧
    some [1, 2] ≠ some ([2] : List Nat) ∧
    ((emptyStateChanges.add_notification "!r:x" 2).add_notification "!r:x" 1).notifications
        "!r:x" = some [2, 1] ∧
    ([1, 2] : List Nat) ≠ [2, 1] :=
  ⟨rfl, by decide, rfl, by decide⟩

/-- C5, amended: within one changeset, repeated upserts to the same key
retain only the last value and distinct-key upserts commute (the aggregate is
insertion-order independent) for the presence, room-info, state, room
account-data, stripped-member, receipt and timeline operations;
`add_notification` instead appends to the room's notification list, retaining
every notification in call order. -/
theorem c5_upsert_semantics (c : StateChanges)
    (sP : String) (pA pB rA rB : Nat)
    (sP1 sP2 : String) (pC pD rC rD : Nat) (hP : sP1 ≠ sP2)
    (iR : String) (iA iB : Nat)
    (iR1 iR2 : String) (iC iD : Nat) (hR : iR1 ≠ iR2)
    (rS tS kS : String) (vA vB : Nat)
    (rS1 tS1 kS1 rS2 tS2 kS2 : String) (vC vD : Nat)
    (hS : ¬(rS1 = rS2 ∧ tS1 = tS2 ∧ kS1 = kS2))
    (rD0 tD0 : String) (wA wB : Nat)
    (rD1 tD1 rD2 tD2 : String) (wC wD : Nat) (hD : ¬(rD1 = rD2 ∧ tD1 = tD2))
    (rM uM : String) (mA mB : Nat)
    (rM1 uM1 rM2 uM2 : String) (mC mD : Nat) (hM : ¬(rM1 = rM2 ∧ uM1 = uM2))
    (rRc : String) (cA cB : Nat)
    (rRc1 rRc2 : String) (cC cD : Nat) (hRc : rRc1 ≠ rRc2)
    (rT : String) (tlA tlB : Nat)
    (rT1 rT2 : String) (tlC tlD : Nat) (hT : rT1 ≠ rT2)
    (rN : String) (n1 n2 : Nat) :
    (c.add_presence_event (PresenceEvent.mk sP pA) rA).add_presence_event
        (PresenceEvent.mk sP pB) rB
      = c.add_presence_event (PresenceEvent.mk sP pB) rB ∧
    (c.add_presence_event (PresenceEvent.mk sP1 pC) rC).add_presence_event
        (PresenceEvent.mk sP2 pD) rD
      = (c.add_presence_event (PresenceEvent.mk sP2 pD) rD).add_presence_event
        (PresenceEvent.mk sP1 pC) rC ∧
    (c.add_room (RoomInfo.mk iR iA)).add_room (RoomInfo.mk iR iB)
      = c.add_room (RoomInfo.mk iR iB) ∧
    (c.add_room (RoomInfo.mk iR1 iC)).add_room (RoomInfo.mk iR2 iD)
      = (c.add_room (RoomInfo.mk iR2 iD)).add_room (RoomInfo.mk iR1 iC) ∧
    (c.add_state_event rS (SyncStateEvent.mk tS kS) vA).add_state_event
        rS (SyncStateEvent.mk tS kS) vB
      = c.add_state_event rS (SyncStateEvent.mk tS kS) vB ∧
    (c.add_state_event rS1 (SyncStateEvent.mk tS1 kS1) vC).add_state_event
        rS2 (SyncStateEvent.mk tS2 kS2) vD
      = (c.add_state_event rS2 (SyncStateEvent.mk tS2 kS2) vD).add_state_event
        rS1 (SyncStateEvent.mk tS1 kS1) vC ∧
    (c.add_room_account_data rD0 (RoomAccountDataEvent.mk tD0) wA).add_room_account_data
        rD0 (RoomAccountDataEvent.mk tD0) wB
      = c.add_room_account_data rD0 (RoomAccountDataEvent.mk tD0) wB ∧
    (c.add_room_account_data rD1 (RoomAccountDataEvent.mk tD1) wC).add_room_account_data
        rD2 (RoomAccountDataEvent.mk tD2) wD
      = (c.add_room_account_data rD2 (RoomAccountDataEvent.mk tD2) wD).add_room_account_data
        rD1 (RoomAccountDataEvent.mk tD1) wC ∧
    (c.add_stripped_member rM (StrippedMemberEvent.mk uM mA)).add_stripped_member
        rM (StrippedMemberEvent.mk uM mB)
      = c.add_stripped_member rM (StrippedMemberEvent.mk uM mB) ∧
    (c.add_stripped_member rM1 (StrippedMemberEvent.mk uM1 mC)).add_stripped_member
        rM2 (StrippedMemberEvent.mk uM2 mD)
      = (c.add_stripped_member rM2 (StrippedMemberEvent.mk uM2 mD)).add_stripped_member
        rM1 (StrippedMemberEvent.mk uM1 mC) ∧
    (c.add_receipts rRc cA).add_receipts rRc cB = c.add_receipts rRc cB ∧
    (c.add_receipts rRc1 cC).add_receipts rRc2 cD
      = (c.add_receipts rRc2 cD).add_receipts rRc1 cC ∧
    (c.add_timeline rT tlA).add_timeline rT tlB = c.add_timeline rT tlB ∧
    (c.add_timeline rT1 tlC).add_timeline rT2 tlD
      = (c.add_timeline rT2 tlD).add_timeline rT1 tlC ∧
    ((c.add_notification rN n1).add_notification rN n2).notifications rN
      = some (((c.notifications rN).getD []) ++ [n1, n2]) := by
  refine ⟨?_, ?_, ?_, ?_, ?_, ?_, ?_, ?_, ?_, ?_, ?_, ?_, ?_, ?_, ?_⟩
  · simp only [StateChanges.add_presence_event, Mp.insert_insert]
  · simp only [StateChanges.add_presence_event]
    rw [Mp.insert_comm _ _ _ _ _ hP]
  · simp only [StateChanges.add_room, Mp.insert_insert]
  · simp only [StateChanges.add_room]
    rw [Mp.insert_comm _ _ _ _ _ hR]
  · simp only [StateChanges.add_state_event]
    rw [upsert3_last]
  · simp only [StateChanges.add_state_event]
    rw [upsert3_comm c.state rS1 tS1 kS1 rS2 tS2 kS2 vC vD hS]
  · simp only [StateChanges.add_room_account_data]
    rw [upsert2_last]
  · simp only [StateChanges.add_room_account_data]
    rw [upsert2_comm c.room_account_data rD1 tD1 rD2 tD2 wC wD hD]
  · simp only [StateChanges.add_stripped_member]
    rw [upsert2_last]
  · simp only [StateChanges.add_stripped_member]
    rw [upsert2_comm c.stripped_members rM1 uM1 rM2 uM2
      (StrippedMemberEvent.mk uM1 mC) (StrippedMemberEvent.mk uM2 mD) hM]
  · simp only [StateChanges.add_receipts, Mp.insert_insert]
  · simp only [StateChanges.add_receipts]
    rw [Mp.insert_comm _ _ _ _ _ hRc]
  · simp only [StateChanges.add_timeline, Mp.insert_insert]
  · simp only [StateChanges.add_timeline]
    rw [Mp.insert_comm _ _ _ _ _ hT]
  · simp only [StateChanges.add_notification, Mp.insert_self, Option.getD_some]
    rw [List.append_assoc]
    rfl

/-- C5, witness: the upsert-semantics theorem at concrete keys and values on
the empty changeset. -/
theorem c5_upsert_semantics_witness :
    (emptyStateChanges.add_presence_event (PresenceEvent.mk "s" 1) 3).add_presence_event
        (PresenceEvent.mk "s" 2) 4
      = emptyStateChanges.add_presence_event (PresenceEvent.mk "s" 2) 4 ∧
    (emptyStateChanges.add_presence_event (PresenceEvent.mk "a" 1) 3).add_presence_event
        (PresenceEvent.mk "b" 2) 4
      = (emptyStateChanges.add_presence_event (PresenceEvent.mk "b" 2) 4).add_presence_event
        (PresenceEvent.mk "a" 1) 3 ∧
    (emptyStateChanges.add_room (RoomInfo.mk "!r" 1)).add_room (RoomInfo.mk "!r" 2)
      = emptyStateChanges.add_room (RoomInfo.mk "!r" 2) ∧
    (emptyStateChanges.add_room (RoomInfo.mk "!r1" 1)).add_room (RoomInfo.mk "!r2" 2)
      = (emptyStateChanges.add_room (RoomInfo.mk "!r2" 2)).add_room (RoomInfo.mk "!r1" 1) ∧
    (emptyStateChanges.add_state_event "!r" (SyncStateEvent.mk "t" "k") 1).add_state_event
        "!r" (SyncStateEvent.mk "t" "k") 2
      = emptyStateChanges.add_state_event "!r" (SyncStateEvent.mk "t" "k") 2 ∧
    (emptyStateChanges.add_state_event "!r1" (SyncStateEvent.mk "t1" "k1") 1).add_state_event
        "!r2" (SyncStateEvent.mk "t2" "k2") 2
      = (emptyStateChanges.add_state_event "!r2" (SyncStateEvent.mk "t2" "k2") 2).add_state_event
        "!r1" (SyncStateEvent.mk "t1" "k1") 1 ∧
    (emptyStateChanges.add_room_account_data "!r" (RoomAccountDataEvent.mk "t") 1).add_room_account_data
        "!r" (RoomAccountDataEvent.mk "t") 2
      = emptyStateChanges.add_room_account_data "!r" (RoomAccountDataEvent.mk "t") 2 ∧
    (emptyStateChanges.add_room_account_data "!r1" (RoomAccountDataEvent.mk "t1") 1).add_room_account_data
        "!r2" (RoomAccountDataEvent.mk "t2") 2
      = (emptyStateChanges.add_room_account_data "!r2" (RoomAccountDataEvent.mk "t2") 2).add_room_account_data
        "!r1" (RoomAccountDataEvent.mk "t1") 1 ∧
    (emptyStateChanges.add_stripped_member "!r" (StrippedMemberEvent.mk "@u" 1)).add_stripped_member
        "!r" (StrippedMemberEvent.mk "@u" 2)
      = emptyStateChanges.add_stripped_member "!r" (StrippedMemberEvent.mk "@u" 2) ∧
    (emptyStateChanges.add_stripped_member "!r1" (StrippedMemberEvent.mk "@u1" 1)).add_stripped_member
        "!r2" (StrippedMemberEvent.mk "@u2" 2)
      = (emptyStateChanges.add_stripped_member "!r2" (StrippedMemberEvent.mk "@u2" 2)).add_stripped_member
        "!r1" (StrippedMemberEvent.mk "@u1" 1) ∧
    (emptyStateChanges.add_receipts "!r" 1).add_receipts "!r" 2 = emptyStateChanges.add_receipts "!r" 2 ∧
    (emptyStateChanges.add_receipts "!r1" 1).add_receipts "!r2" 2
      = (emptyStateChanges.add_receipts "!r2" 2).add_receipts "!r1" 1 ∧
    (emptyStateChanges.add_timeline "!r" 1).add_timeline "!r" 2 = emptyStateChanges.add_timeline "!r" 2 ∧
    (emptyStateChanges.add_timeline "!r1" 1).add_timeline "!r2" 2
      = (emptyStateChanges.add_timeline "!r2" 2).add_timeline "!r1" 1 ∧
    ((emptyStateChanges.add_notification "!r" 1).add_notification "!r" 2).notifications "!r"
      = some (((emptyStateChanges.notifications "!r").getD []) ++ [1, 2]) :=
  c5_upsert_semantics emptyStateChanges "s" 1 2 3 4 "a" "b" 1 2 3 4 (by decide) "!r" 1 2 "!r1" "!r2" 1 2 (by decide) "!r" "t" "k" 1 2 "!r1" "t1" "k1" "!r2" "t2" "k2" 1 2 (by decide) "!r" "t" 1 2 "!r1" "t1" "!r2" "t2" 1 2 (by decide) "!r" "@u" 1 2 "!r1" "@u1" "!r2" "@u2" 1 2 (by decide) "!r" 1 2 "!r1" "!r2" 1 2 (by decide) "!r" 1 2 "!r1" "!r2" 1 2 (by decide) "!r" 1 2

/-! ## Sliding-sync configuration and bootstrap
(`matrix-sdk/src/sliding_sync/config.rs`) -/

/-- `ToDeviceConfig` (ruma): the fields the builder and bootstrap touch. -/
structure ToDeviceConfig where
  enabled : Option Bool
  since : Option String
deriving DecidableEq

/-- `E2EEConfig` (ruma). -/
structure E2EEConfig where
  enabled : Option Bool
deriving DecidableEq

/-- `AccountDataConfig` (ruma). -/
structure AccountDataConfig where
  enabled : Option Bool
deriving DecidableEq

/-- `TypingConfig` (ruma). -/
structure TypingConfig where
  enabled : Option Bool
deriving DecidableEq

/-- `ReceiptConfig` (ruma). -/
structure ReceiptConfig where
  enabled : Option Bool
deriving DecidableEq

/-- `ExtensionsConfig` (ruma): one optional config per extension. -/
structure ExtensionsConfig where
  to_device : Option ToDeviceConfig
  e2ee : Option E2EEConfig
  account_data : Option AccountDataConfig
  typing : Option TypingConfig
  receipt : Option ReceiptConfig
deriving DecidableEq

/-- `ExtensionsConfig::default()`: everything unset. -/
def defaultExtensionsConfig : ExtensionsConfig :=
  ⟨none, none, none, none, none⟩

/-- `assign!(ToDeviceConfig::default(), { enabled: Some(true) })`. -/
def enabledToDeviceConfig : ToDeviceConfig := ⟨some true, none⟩

/-- `assign!(E2EEConfig::default(), { enabled: Some(true) })`. -/
def enabledE2EEConfig : E2EEConfig := ⟨some true⟩

/-- `assign!(AccountDataConfig::default(), { enabled: Some(true) })`. -/
def enabledAccountDataConfig : AccountDataConfig := ⟨some true⟩

/-- `assign!(TypingConfig::default(), { enabled: Some(true) })`. -/
def enabledTypingConfig : TypingConfig := ⟨some true⟩

/-- `assign!(ReceiptConfig::default(), { enabled: Some(true) })`. -/
def enabledReceiptConfig : ReceiptConfig := ⟨some true⟩

/-- A sliding-sync view: its name and its live cursor (rooms count and the
ordered room-id window); the window specification itself is irrelevant to the
embedded behaviour. -/
structure SlidingSyncView where
  name : String
  rooms_count : Option Nat
  rooms_list : List String
deriving DecidableEq

/-- Modelled from the spec: `SlidingSyncView::set_from_cold` (defined in the
views module, outside the provided sources) installs the frozen rooms count
and room-id window into the view's live cursor. -/
def SlidingSyncView.set_from_cold (v : SlidingSyncView) (rooms_count : Nat)
    (rooms_list : List String) : SlidingSyncView :=
  { v with rooms_count := some rooms_count, rooms_list := rooms_list }

/-- A cached room payload inside a frozen view (opaque). -/
structure FrozenSlidingSyncRoom where
  payload : Nat
deriving DecidableEq

/-- A live sliding-sync room (opaque payload). -/
structure SlidingSyncRoom where
  payload : Nat
deriving DecidableEq

/-- Modelled from the spec: `SlidingSyncRoom::from_frozen` (defined outside
the provided sources) revives a cached room payload into a live room. -/
def SlidingSyncRoom.from_frozen (f : FrozenSlidingSyncRoom) : SlidingSyncRoom :=
  ⟨f.payload⟩

/-- Modelled from the spec: the per-view snapshot record
`FrozenSlidingSyncView { rooms_count, rooms_list, rooms }` (defined outside
the provided sources); the `rooms` `BTreeMap` is an association list in its
key order. -/
structure FrozenSlidingSyncView where
  rooms_count : Nat
  rooms_list : List String
  rooms : List (String × FrozenSlidingSyncRoom)
deriving DecidableEq

/-- Modelled from the spec: the session-level snapshot record
`FrozenSlidingSync { to_device_since, delta_token }` (defined outside the
provided sources). -/
structure FrozenSlidingSync where
  to_device_since : Option String
  delta_token : Option String
deriving DecidableEq

/-- Modelled from the spec: a value in the generic key-value capability is an
opaque blob that deserializes into a per-view snapshot, a session snapshot,
or neither (a hard Codec error). -/
inductive Blob
  | viewBlob (v : FrozenSlidingSyncView)
  | sessionBlob (s : FrozenSlidingSync)
  | garbage
deriving DecidableEq

/-- The fatal bootstrap failure: a deserialization error.  (Backend read
failures are opaque pass-throughs and are not modelled; the embedded store
read is total.) -/
inductive BuildError
  | codec
deriving DecidableEq

/-- Modelled from the spec: `serde_json::from_slice::<FrozenSlidingSyncView>`. -/
def decodeView : Blob → Except BuildError FrozenSlidingSyncView
  | Blob.viewBlob v => Except.ok v
  | _ => Except.error BuildError.codec

/-- Modelled from the spec: `serde_json::from_slice::<FrozenSlidingSync>`. -/
def decodeSession : Blob → Except BuildError FrozenSlidingSync
  | Blob.sessionBlob s => Except.ok s
  | _ => Except.error BuildError.codec

/-- Lexicographic order on character lists by codepoint, matching the
`Ord for String` (byte-lexicographic on UTF-8) order a Rust `BTreeMap` keeps
its `String` keys in. -/
def strLtB : List Char → List Char → Bool
  | [], [] => false
  | [], _ :: _ => true
  | _ :: _, [] => false
  | a :: as, b :: bs =>
    if a.toNat < b.toNat then true
    else if b.toNat < a.toNat then false
    else strLtB as bs

/-- Lexicographic order on strings (see `strLtB`). -/
def strLt (a b : String) : Bool := strLtB a.data b.data

/-- The sorted association list standing for `BTreeMap<String, α>`: insertion
keeps keys in ascending order (the map's iteration order) and replaces an
existing key. -/
def sortedInsert {α : Type} (k : String) (v : α) :
    List (String × α) → List (String × α)
  | [] => [(k, v)]
  | (k2, v2) :: rest =>
    if strLt k k2 then (k, v) :: (k2, v2) :: rest
    else if k = k2 then (k, v) :: rest
    else (k2, v2) :: sortedInsert k v rest

/-- First-match lookup in an association list. -/
def assocLookup {α : Type} (x : String) : List (String × α) → Option α
  | [] => none
  | (k, v) :: rest => if x = k then some v else assocLookup x rest

/-- `SlidingSyncBuilder` (generated by `derive_builder`, pattern owned):
every configuration field is optionally set.  The `client`, `homeserver` and
`subscriptions` fields play no role in the embedded behaviour and are
omitted. -/
structure SlidingSyncBuilder where
  storage_key : Option (Option String)
  views : Option (List (String × SlidingSyncView))
  extensions : Option (Option ExtensionsConfig)
deriving DecidableEq

/-- A fresh `SlidingSyncBuilder::default()`. -/
def emptySlidingSyncBuilder : SlidingSyncBuilder := ⟨none, none, none⟩

/-- `SlidingSyncBuilder::cold_cache`. -/
def SlidingSyncBuilder.cold_cache (b : SlidingSyncBuilder) (name : String) :
    SlidingSyncBuilder :=
  { b with storage_key := some (some name) }

/-- `SlidingSyncBuilder::no_cold_cache`. -/
def SlidingSyncBuilder.no_cold_cache (b : SlidingSyncBuilder) : SlidingSyncBuilder :=
  { b with storage_key := none }

/-- `SlidingSyncBuilder::no_views`. -/
def SlidingSyncBuilder.no_views (b : SlidingSyncBuilder) : SlidingSyncBuilder :=
  { b with views := none }

/-- `SlidingSyncBuilder::add_view`: inserts into the views `BTreeMap` keyed
by the view name, replacing any view with the same name. -/
def SlidingSyncBuilder.add_view (b : SlidingSyncBuilder) (v : SlidingSyncView) :
    SlidingSyncBuilder :=
  { b with views := some (sortedInsert v.name v (b.views.getD [])) }

/-- The extension configuration every setter operates on:
`extensions.get_or_insert_with(Default::default).get_or_insert_with(Default::default)`. -/
def SlidingSyncBuilder.extCfg (b : SlidingSyncBuilder) : ExtensionsConfig :=
  (b.extensions.getD none).getD defaultExtensionsConfig

/-- `SlidingSyncBuilder::with_common_extensions`: enables the to-device, e2ee
and account-data extensions only where not yet configured. -/
def SlidingSyncBuilder.with_common_extensions (b : SlidingSyncBuilder) :
    SlidingSyncBuilder :=
  let cfg := b.extCfg
  let cfg := if cfg.to_device.isNone then
      { cfg with to_device := some enabledToDeviceConfig } else cfg
  let cfg := if cfg.e2ee.isNone then
      { cfg with e2ee := some enabledE2EEConfig } else cfg
  let cfg := if cfg.account_data.isNone then
      { cfg with account_data := some enabledAccountDataConfig } else cfg
  { b with extensions := some (some cfg) }

/-- `SlidingSyncBuilder::with_all_extensions`: additionally enables the
receipt and typing extensions where not yet configured. -/
def SlidingSyncBuilder.with_all_extensions (b : SlidingSyncBuilder) :
    SlidingSyncBuilder :=
  let cfg := b.extCfg
  let cfg := if cfg.to_device.isNone then
      { cfg with to_device := some enabledToDeviceConfig } else cfg
  let cfg := if cfg.e2ee.isNone then
      { cfg with e2ee := some enabledE2EEConfig } else cfg
  let cfg := if cfg.account_data.isNone then
      { cfg with account_data := some enabledAccountDataConfig } else cfg
  let cfg := if cfg.receipt.isNone then
      { cfg with receipt := some enabledReceiptConfig } else cfg
  let cfg := if cfg.typing.isNone then
      { cfg with typing := some enabledTypingConfig } else cfg
  { b with extensions := some (some cfg) }

/-- `SlidingSyncBuilder::with_to_device_extension`: sets the field
unconditionally. -/
def SlidingSyncBuilder.with_to_device_extension (b : SlidingSyncBuilder)
    (to_device : ToDeviceConfig) : SlidingSyncBuilder :=
  { b with extensions := some (some { b.extCfg with to_device := some to_device }) }

/-- `SlidingSyncBuilder::without_to_device_extension`. -/
def SlidingSyncBuilder.without_to_device_extension (b : SlidingSyncBuilder) :
    SlidingSyncBuilder :=
  { b with extensions := some (some { b.extCfg with to_device := none }) }

/-- `SlidingSyncBuilder::with_e2ee_extension`: sets the field
unconditionally. -/
def SlidingSyncBuilder.with_e2ee_extension (b : SlidingSyncBuilder)
    (e2ee : E2EEConfig) : SlidingSyncBuilder :=
  { b with extensions := some (some { b.extCfg with e2ee := some e2ee }) }

/-- `SlidingSyncBuilder::without_e2ee_extension`. -/
def SlidingSyncBuilder.without_e2ee_extension (b : SlidingSyncBuilder) :
    SlidingSyncBuilder :=
  { b with extensions := some (some { b.extCfg with e2ee := none }) }

/-- `SlidingSyncBuilder::with_account_data_extension`: sets the field
unconditionally. -/
def SlidingSyncBuilder.with_account_data_extension (b : SlidingSyncBuilder)
    (account_data : AccountDataConfig) : SlidingSyncBuilder :=
  { b with extensions := some (some { b.extCfg with account_data := some account_data }) }

/-- `SlidingSyncBuilder::without_account_data_extension`. -/
def SlidingSyncBuilder.without_account_data_extension (b : SlidingSyncBuilder) :
    SlidingSyncBuilder :=
  { b with extensions := some (some { b.extCfg with account_data := none }) }

/-- `SlidingSyncBuilder::with_typing_extension`: sets the field
unconditionally. -/
def SlidingSyncBuilder.with_typing_extension (b : SlidingSyncBuilder)
    (typing : TypingConfig) : SlidingSyncBuilder :=
  { b with extensions := some (some { b.extCfg with typing := some typing }) }

/-- `SlidingSyncBuilder::without_typing_extension`. -/
def SlidingSyncBuilder.without_typing_extension (b : SlidingSyncBuilder) :
    SlidingSyncBuilder :=
  { b with extensions := some (some { b.extCfg with typing := none }) }

/-- `SlidingSyncBuilder::with_receipt_extension`: sets the field
unconditionally. -/
def SlidingSyncBuilder.with_receipt_extension (b : SlidingSyncBuilder)
    (receipt : ReceiptConfig) : SlidingSyncBuilder :=
  { b with extensions := some (some { b.extCfg with receipt := some receipt }) }

/-- `SlidingSyncBuilder::without_receipt_extension`. -/
def SlidingSyncBuilder.without_receipt_extension (b : SlidingSyncBuilder) :
    SlidingSyncBuilder :=
  { b with extensions := some (some { b.extCfg with receipt := none }) }

/-- `SlidingSyncConfig`: the built configuration. -/
structure SlidingSyncConfig where
  storage_key : Option String
  views : List (String × SlidingSyncView)
  extensions : Option ExtensionsConfig
deriving DecidableEq

/-- `SlidingSyncBuilder::build_no_cache`: applies the `derive_builder`
defaults to every unset field. -/
def SlidingSyncBuilder.build_no_cache (b : SlidingSyncBuilder) : SlidingSyncConfig :=
  { storage_key := b.storage_key.getD none,
    views := b.views.getD [],
    extensions := b.extensions.getD none }

/-- The assembled `SlidingSync` session object, reduced to the fields the
bootstrap determines. -/
structure SlidingSync where
  storage_key : Option String
  views : List (String × SlidingSyncView)
  rooms : Mp String SlidingSyncRoom
  extensions : Option ExtensionsConfig
  delta_token : Option String
  pos : Option String

/-- `rooms_found.entry(key).or_insert_with(..)`: inserts only when the key is
absent. -/
def insertIfAbsent (m : Mp String SlidingSyncRoom) (k : String)
    (v : SlidingSyncRoom) : Mp String SlidingSyncRoom :=
  match m k with
  | some _ => m
  | none => Mp.insert m k v

/-- The per-view restore loop of `SlidingSyncConfig::build`: for each view in
map order, read `"<storage_key>::<name>"`; a miss leaves the view unchanged,
a hit installs the frozen cursor into the view and merges the frozen rooms
into the accumulated room map first-writer-wins, and a decode failure aborts
the whole bootstrap. -/
def restoreViews (store : String → Option Blob) (sk : String) :
    List (String × SlidingSyncView) → Mp String SlidingSyncRoom →
    Except BuildError (List (String × SlidingSyncView) × Mp String SlidingSyncRoom)
  | [], roomsFound => Except.ok ([], roomsFound)
  | (name, view) :: rest, roomsFound =>
    match store (sk ++ "::" ++ name) with
    | none =>
      match restoreViews store sk rest roomsFound with
      | Except.error e => Except.error e
      | Except.ok (vs, rs) => Except.ok ((name, view) :: vs, rs)
    | some blob =>
      match decodeView blob with
      | Except.error e => Except.error e
      | Except.ok fv =>
        let view2 := view.set_from_cold fv.rooms_count fv.rooms_list
        let roomsFound2 := fv.rooms.foldl
          (fun m p => insertIfAbsent m p.1 (SlidingSyncRoom.from_frozen p.2)) roomsFound
        match restoreViews store sk rest roomsFound2 with
        | Except.error e => Except.error e
        | Except.ok (vs, rs) => Except.ok ((name, view2) :: vs, rs)

/-- `SlidingSyncConfig::build`: the bootstrap.  Without a storage key the
session assembles cold; with one, per-view snapshots are restored in view map
order, then the session-level snapshot is read, injecting the to-device-since
token only into an already-configured to-device extension and adopting the
delta token. -/
def SlidingSyncConfig.build (cfg : SlidingSyncConfig)
    (store : String → Option Blob) : Except BuildError SlidingSync :=
  match cfg.storage_key with
  | none =>
    Except.ok
      { storage_key := none, views := cfg.views, rooms := Mp.empty,
        extensions := cfg.extensions, delta_token := none, pos := none }
  | some sk =>
    match restoreViews store sk cfg.views Mp.empty with
    | Except.error e => Except.error e
    | Except.ok (views2, roomsFound) =>
      match store sk with
      | none =>
        Except.ok
          { storage_key := some sk, views := views2, rooms := roomsFound,
            extensions := cfg.extensions, delta_token := none, pos := none }
      | some blob =>
        match decodeSession blob with
        | Except.error e => Except.error e
        | Except.ok fs =>
          let exts :=
            match fs.to_device_since with
            | none => cfg.extensions
            | some since =>
              let e := cfg.extensions.getD defaultExtensionsConfig
              some (match e.to_device with
                | none => e
                | some td => { e with to_device := some { td with since := some since } })
          Except.ok
            { storage_key := some sk, views := views2, rooms := roomsFound,
              extensions := exts, delta_token := fs.delta_token, pos := none }

/-- The to-device extension of an assembled session. -/
def SlidingSync.toDeviceExt (s : SlidingSync) : Option ToDeviceConfig :=
  s.extensions.bind (fun e => e.to_device)

/-- The room-map entry of a bootstrap result at a given id (absent when the
bootstrap failed). -/
def roomEntry (r : Except BuildError SlidingSync) (x : String) :
    Option SlidingSyncRoom :=
  match r with
  | Except.ok s => s.rooms x
  | Except.error _ => none

theorem insertIfAbsent_preserve (m : Mp String SlidingSyncRoom) (k x : String)
    (v q : SlidingSyncRoom) (h : m x = some q) : insertIfAbsent m k v x = some q := by
  unfold insertIfAbsent
  cases hk : m k with
  | some w => exact h
  | none =>
    by_cases hx : x = k
    · subst hx
      rw [h] at hk
      exact Option.noConfusion hk
    · show Mp.insert m k v x = some q
      rw [Mp.insert_other _ _ _ _ hx]
      exact h

theorem foldl_insertIfAbsent_preserve (l : List (String × FrozenSlidingSyncRoom))
    (m : Mp String SlidingSyncRoom) (x : String) (q : SlidingSyncRoom)
    (h : m x = some q) :
    (l.foldl (fun m2 p => insertIfAbsent m2 p.1 (SlidingSyncRoom.from_frozen p.2)) m) x
      = some q := by
  induction l generalizing m with
  | nil => exact h
  | cons p rest ih =>
    exact ih _ (insertIfAbsent_preserve m p.1 x (SlidingSyncRoom.from_frozen p.2) q h)

theorem foldl_insertIfAbsent_absent (l : List (String × FrozenSlidingSyncRoom))
    (m : Mp String SlidingSyncRoom) (x : String) (h : m x = none) :
    (l.foldl (fun m2 p => insertIfAbsent m2 p.1 (SlidingSyncRoom.from_frozen p.2)) m) x
      = (assocLookup x l).map SlidingSyncRoom.from_frozen := by
  induction l generalizing m with
  | nil => simp [assocLookup, h]
  | cons p rest ih =>
    obtain ⟨k, v⟩ := p
    simp only [List.foldl_cons]
    by_cases hx : x = k
    · subst hx
      have hins : insertIfAbsent m x (SlidingSyncRoom.from_frozen v) x
          = some (SlidingSyncRoom.from_frozen v) := by
        unfold insertIfAbsent
        rw [h]
        exact Mp.insert_self _ _ _
      rw [foldl_insertIfAbsent_preserve rest _ x _ hins]
      simp [assocLookup]
    · have hnone : insertIfAbsent m k (SlidingSyncRoom.from_frozen v) x = none := by
        unfold insertIfAbsent
        cases hk : m k with
        | some w => exact h
        | none =>
          show Mp.insert m k (SlidingSyncRoom.from_frozen v) x = none
          rw [Mp.insert_other _ _ _ _ hx]
          exact h
      rw [ih _ hnone]
      simp [assocLookup, hx]

theorem restoreViews_none (store : String → Option Blob) (sk : String)
    (h : ∀ k, store k = none) :
    ∀ (l : List (String × SlidingSyncView)) (m : Mp String SlidingSyncRoom),
      restoreViews store sk l m = Except.ok (l, m) := by
  intro l
  induction l with
  | nil => intro m; rfl
  | cons p rest ih =>
    intro m
    obtain ⟨name, view⟩ := p
    unfold restoreViews
    rw [h (sk ++ "::" ++ name), ih m]

/-! ## C9 -/

/-- C9: bootstrapping with a storage key whose key-value store holds no
record at all succeeds: the views are left exactly as configured (so default
cursors stay default), the room map is empty and the delta token is absent —
a cache miss is not an error. -/
theorem c9_cache_miss_yields_empty_session (cfg : SlidingSyncConfig) (sk : String)
    (store : String → Option Blob) (h1 : cfg.storage_key = some sk)
    (h2 : ∀ k, store k = none) :
    cfg.build store = Except.ok
      { storage_key := some sk, views := cfg.views, rooms := Mp.empty,
        extensions := cfg.extensions, delta_token := none, pos := none } := by
  obtain ⟨skopt, cviews, cexts⟩ := cfg
  replace h1 : skopt = some sk := h1
  subst h1
  simp only [SlidingSyncConfig.build]
  rw [restoreViews_none store sk h2 cviews Mp.empty, h2 sk]

/-- A one-view configuration with storage key "main" and no extensions. -/
def c9Cfg : SlidingSyncConfig :=
  { storage_key := some "main",
    views := [("v", SlidingSyncView.mk "v" none [])],
    extensions := none }

/-- C9, witness: the cache-miss theorem on a concrete one-view configuration
and the empty store. -/
theorem c9_cache_miss_yields_empty_session_witness :
    c9Cfg.build (fun _ => none) = Except.ok
      { storage_key := some "main", views := c9Cfg.views, rooms := Mp.empty,
        extensions := c9Cfg.extensions, delta_token := none, pos := none } :=
  c9_cache_miss_yields_empty_session c9Cfg "main" (fun _ => none) rfl (fun _ => rfl)

/-! ## C3 -/

/-- C3: when the session-level snapshot holds a to-device-since token, the
bootstrap injects the token into the to-device extension exactly when one is
already configured; when the to-device extension was never configured the
token is dropped and the assembled session still has no to-device extension. -/
theorem c3_to_device_since_injection (cfg : SlidingSyncConfig) (sk : String)
    (store : String → Option Blob) (tok : String) (dt : Option String)
    (vs : List (String × SlidingSyncView)) (rs : Mp String SlidingSyncRoom)
    (h1 : cfg.storage_key = some sk)
    (h2 : restoreViews store sk cfg.views Mp.empty = Except.ok (vs, rs))
    (h3 : store sk = some (Blob.sessionBlob (FrozenSlidingSync.mk (some tok) dt))) :
    ∃ s, cfg.build store = Except.ok s ∧
      s.toDeviceExt = (cfg.extensions.bind (fun e => e.to_device)).map
        (fun td => { td with since := some tok }) := by
  obtain ⟨skopt, cviews, cexts⟩ := cfg
  replace h1 : skopt = some sk := h1
  subst h1
  replace h2 : restoreViews store sk cviews Mp.empty = Except.ok (vs, rs) := h2
  simp only [SlidingSyncConfig.build]
  rw [h2, h3]
  refine ⟨_, rfl, ?_⟩
  cases cexts with
  | none => rfl
  | some e =>
    cases he : e.to_device with
    | none =>
      simp [SlidingSync.toDeviceExt, he]
    | some td =>
      simp [SlidingSync.toDeviceExt, he]

/-- A no-view configuration whose to-device extension is configured. -/
def c3Cfg : SlidingSyncConfig :=
  { storage_key := some "sk", views := [],
    extensions := some
      { defaultExtensionsConfig with to_device := some (ToDeviceConfig.mk (some true) none) } }

/-- A store holding only a session-level snapshot with a to-device-since
token and a delta token. -/
def c3Store : String → Option Blob := fun k =>
  if k = "sk" then some (Blob.sessionBlob (FrozenSlidingSync.mk (some "tok1") (some "dt1")))
  else none

/-- C3, witness: the injection theorem on a configuration with a configured
to-device extension. -/
theorem c3_to_device_since_injection_witness :
    ∃ s, c3Cfg.build c3Store = Except.ok s ∧
      s.toDeviceExt = (c3Cfg.extensions.bind (fun e => e.to_device)).map
        (fun td => { td with since := some "tok1" }) :=
  c3_to_device_since_injection c3Cfg "sk" c3Store "tok1" (some "dt1") [] Mp.empty
    rfl rfl rfl

/-! ## C2 -/

/-- A view with the given name and a default (empty) cursor. -/
def cexView (nm : String) : SlidingSyncView := SlidingSyncView.mk nm none []

/-- A store with frozen snapshots for views named "a" and "b" under storage
key "sk", both caching room "!x:s" with different payloads (2 resp. 1). -/
def c2Store : String → Option Blob := fun k =>
  if k = "sk::a" then
    some (Blob.viewBlob (FrozenSlidingSyncView.mk 7 ["!x:s"]
      [("!x:s", FrozenSlidingSyncRoom.mk 2)]))
  else if k = "sk::b" then
    some (Blob.viewBlob (FrozenSlidingSyncView.mk 5 ["!x:s"]
      [("!x:s", FrozenSlidingSyncRoom.mk 1)]))
  else none

/-- C2, counterexample: configuring view "b" first and view "a" second, both
caching room "!x:s", the bootstrap assembles the entry of "!x:s" from view
"a" (payload 2) — the views `BTreeMap` iterates in name order, not in
configuration insertion order, so the first-inserted view "b" (payload 1)
does not win. -/
theorem c2_counterexample :
    roomEntry ((((emptySlidingSyncBuilder.cold_cache "sk").add_view
        (cexView "b")).add_view (cexView "a")).build_no_cache.build c2Store) "!x:s"
      = some (SlidingSyncRoom.mk 2) ∧
    SlidingSyncRoom.mk 2 ≠ SlidingSyncRoom.mk 1 := by
  constructor
  · decide
  · decide

/-- C2, amended: per-view snapshots are restored iterating the views in
ascending name order (the views map's order), and when two views both cache
room `x` the assembled room map keeps the payload of the view that comes
first in that name order (first writer wins along map order). -/
theorem c2_first_view_in_name_order_wins (sk n1 n2 : String)
    (v1 v2 : SlidingSyncView) (fv1 fv2 : FrozenSlidingSyncView)
    (exts : Option ExtensionsConfig) (store : String → Option Blob)
    (x : String) (p1 : FrozenSlidingSyncRoom)
    (h1 : store (sk ++ "::" ++ n1) = some (Blob.viewBlob fv1))
    (h2 : store (sk ++ "::" ++ n2) = some (Blob.viewBlob fv2))
    (h3 : store sk = none)
    (h4 : assocLookup x fv1.rooms = some p1) :
    ∃ s, (SlidingSyncConfig.mk (some sk) [(n1, v1), (n2, v2)] exts).build store
        = Except.ok s ∧
      s.rooms x = some (SlidingSyncRoom.from_frozen p1) := by
  have hr1 : (fv1.rooms.foldl
      (fun m p => insertIfAbsent m p.1 (SlidingSyncRoom.from_frozen p.2)) Mp.empty) x
      = some (SlidingSyncRoom.from_frozen p1) := by
    rw [foldl_insertIfAbsent_absent fv1.rooms Mp.empty x rfl, h4]
    rfl
  have hr2 : (fv2.rooms.foldl
      (fun m p => insertIfAbsent m p.1 (SlidingSyncRoom.from_frozen p.2))
      (fv1.rooms.foldl
        (fun m p => insertIfAbsent m p.1 (SlidingSyncRoom.from_frozen p.2)) Mp.empty)) x
      = some (SlidingSyncRoom.from_frozen p1) :=
    foldl_insertIfAbsent_preserve fv2.rooms _ x _ hr1
  have hrv : restoreViews store sk [(n1, v1), (n2, v2)] Mp.empty
      = Except.ok ([(n1, v1.set_from_cold fv1.rooms_count fv1.rooms_list),
          (n2, v2.set_from_cold fv2.rooms_count fv2.rooms_list)],
          fv2.rooms.foldl
            (fun m p => insertIfAbsent m p.1 (SlidingSyncRoom.from_frozen p.2))
            (fv1.rooms.foldl
              (fun m p => insertIfAbsent m p.1 (SlidingSyncRoom.from_frozen p.2))
              Mp.empty)) := by
    unfold restoreViews
    rw [h1]
    unfold restoreViews
    rw [h2]
    rfl
  have hb : (SlidingSyncConfig.mk (some sk) [(n1, v1), (n2, v2)] exts).build store
      = Except.ok (SlidingSync.mk (some sk)
          [(n1, v1.set_from_cold fv1.rooms_count fv1.rooms_list),
            (n2, v2.set_from_cold fv2.rooms_count fv2.rooms_list)]
          (fv2.rooms.foldl
            (fun m p => insertIfAbsent m p.1 (SlidingSyncRoom.from_frozen p.2))
            (fv1.rooms.foldl
              (fun m p => insertIfAbsent m p.1 (SlidingSyncRoom.from_frozen p.2))
              Mp.empty))
          exts none none) := by
    simp only [SlidingSyncConfig.build]
    rw [hrv, h3]
  exact ⟨_, hb, hr2⟩

/-- C2, witness: the name-order theorem at the concrete two-view store; the
lexicographically first view "a" provides the payload for room "!x:s". -/
theorem c2_first_view_in_name_order_wins_witness :
    ∃ s, (SlidingSyncConfig.mk (some "sk") [("a", cexView "a"), ("b", cexView "b")]
        none).build c2Store = Except.ok s ∧
      s.rooms "!x:s" = some (SlidingSyncRoom.from_frozen (FrozenSlidingSyncRoom.mk 2)) :=
  c2_first_view_in_name_order_wins "sk" "a" "b" (cexView "a") (cexView "b")
    (FrozenSlidingSyncView.mk 7 ["!x:s"] [("!x:s", FrozenSlidingSyncRoom.mk 2)])
    (FrozenSlidingSyncView.mk 5 ["!x:s"] [("!x:s", FrozenSlidingSyncRoom.mk 1)])
    none c2Store "!x:s" (FrozenSlidingSyncRoom.mk 2)
    (by decide) (by decide) (by decide) (by decide)

/-! ## C4 -/

/-- C4, counterexample: `with_to_device_extension` overwrites an
already-configured to-device extension — the second call replaces the first
configuration instead of leaving it untouched. -/
theorem c4_counterexample :
    ((emptySlidingSyncBuilder.with_to_device_extension
        (ToDeviceConfig.mk (some true) (some "s1"))).with_to_device_extension
        (ToDeviceConfig.mk (some false) none)).extCfg.to_device
      = some (ToDeviceConfig.mk (some false) none) ∧
    some (ToDeviceConfig.mk (some false) none)
      ≠ some (ToDeviceConfig.mk (some true) (some "s1")) := by
  constructor
  · rfl
  · decide

/-- C4, amended: the bundle setters `with_common_extensions` and
`with_all_extensions` never overwrite a configured extension field and only
fill the absent ones (`with_common_extensions` touches to-device, e2ee and
account-data and leaves typing and receipt alone); each individual
`with_*_extension` setter, by contrast, sets its field unconditionally,
overwriting any existing configuration. -/
theorem c4_extension_setter_semantics (b : SlidingSyncBuilder)
    (td : ToDeviceConfig) (e2 : E2EEConfig) (ad : AccountDataConfig)
    (tp : TypingConfig) (rc : ReceiptConfig) :
    (b.with_common_extensions).extCfg.to_device
        = some ((b.extCfg.to_device).getD enabledToDeviceConfig) ∧
    (b.with_common_extensions).extCfg.e2ee
        = some ((b.extCfg.e2ee).getD enabledE2EEConfig) ∧
    (b.with_common_extensions).extCfg.account_data
        = some ((b.extCfg.account_data).getD enabledAccountDataConfig) ∧
    (b.with_common_extensions).extCfg.typing = b.extCfg.typing ∧
    (b.with_common_extensions).extCfg.receipt = b.extCfg.receipt ∧
    (b.with_all_extensions).extCfg.to_device
        = some ((b.extCfg.to_device).getD enabledToDeviceConfig) ∧
    (b.with_all_extensions).extCfg.e2ee
        = some ((b.extCfg.e2ee).getD enabledE2EEConfig) ∧
    (b.with_all_extensions).extCfg.account_data
        = some ((b.extCfg.account_data).getD enabledAccountDataConfig) ∧
    (b.with_all_extensions).extCfg.receipt
        = some ((b.extCfg.receipt).getD enabledReceiptConfig) ∧
    (b.with_all_extensions).extCfg.typing
        = some ((b.extCfg.typing).getD enabledTypingConfig) ∧
    (b.with_to_device_extension td).extCfg.to_device = some td ∧
    (b.with_e2ee_extension e2).extCfg.e2ee = some e2 ∧
    (b.with_account_data_extension ad).extCfg.account_data = some ad ∧
    (b.with_typing_extension tp).extCfg.typing = some tp ∧
    (b.with_receipt_extension rc).extCfg.receipt = some rc := by
  simp only [SlidingSyncBuilder.with_common_extensions,
    SlidingSyncBuilder.with_all_extensions,
    SlidingSyncBuilder.with_to_device_extension,
    SlidingSyncBuilder.with_e2ee_extension,
    SlidingSyncBuilder.with_account_data_extension,
    SlidingSyncBuilder.with_typing_extension,
    SlidingSyncBuilder.with_receipt_extension,
    SlidingSyncBuilder.extCfg, Option.getD_some]
  generalize (b.extensions.getD none).getD defaultExtensionsConfig = cfg
  obtain ⟨otd, oe2, oad, otp, orc⟩ := cfg
  cases otd <;> cases oe2 <;> cases oad <;> cases otp <;> cases orc <;>
    simp [enabledToDeviceConfig, enabledE2EEConfig, enabledAccountDataConfig,
      enabledTypingConfig, enabledReceiptConfig]

end MatrixSdk
